import Mathlib

/-
Verification of the compliance document analysis pipeline.

The development shallowly embeds the repository under study:
  - compliance_agent/document_loader.py : section numbering and segment labeling,
  - compliance_agent/extractor.py       : two-stage extraction and the orchestrator,
  - compliance_agent/models.py          : the record shapes and pydantic validation,
  - compliance_agent/api.py             : the task lifecycle endpoints.

External collaborators (the PDF reader and the LLM inference calls) are modeled
as parameters: an inference chain is a function from its prompt inputs to an
outcome that is either a parsed JSON list, a non-list value, or a raised error.
Machine floats appear only as the upload size in MB (an exact power-of-two
division, modeled by an integer comparison) and the task progress field
(modeled as a rational number).
-/

namespace ComplianceAgent

/-! ## String helpers (models of the Python string operations used by the code) -/

/-- Model of Python str.lower for the ASCII strings the code handles. -/
def lowerStr (s : String) : String := ⟨s.data.map Char.toLower⟩

/-- Model of Python str.upper for the ASCII strings the code handles. -/
def upperStr (s : String) : String := ⟨s.data.map Char.toUpper⟩

/-- Character-list test: does the second list start with the first. -/
def startsWithL : List Char → List Char → Bool
  | [], _ => true
  | _ :: _, [] => false
  | a :: as, b :: bs => a == b && startsWithL as bs

/-- Character-list substring test used to model the Python `in` operator. -/
def containsSubL (needle : List Char) : List Char → Bool
  | [] => needle.isEmpty
  | c :: cs => startsWithL needle (c :: cs) || containsSubL needle cs

/-- Model of Python `needle in hay` on strings. -/
def strContains (hay needle : String) : Bool := containsSubL needle.data hay.data

/-- Model of Python `s.startswith(p)`. -/
def startsWithS (s p : String) : Bool := startsWithL p.data s.data

/-- Model of Python `s.endswith(p)`. -/
def endsWithS (s p : String) : Bool := startsWithL p.data.reverse s.data.reverse

/-- Model of Python `s.strip()`: drop whitespace on both ends. -/
def pyStrip (s : String) : String :=
  ⟨((s.data.dropWhile Char.isWhitespace).reverse.dropWhile Char.isWhitespace).reverse⟩

/-- Model of Python `s.isdigit()`: nonempty and all characters are digits. -/
def pyIsDigit (s : String) : Bool := !s.data.isEmpty && s.data.all Char.isDigit

/-- Model of Python `lines[0]` after `s.split(chr(10))`: the text before the
first newline (Python split always yields at least one element). -/
def firstLineRaw (s : String) : String := ⟨s.data.takeWhile (· ≠ '\n')⟩

/-- The stripped first line inspected by the segment labeling loop
(document_loader.py line 113). -/
def firstLineOf (s : String) : String := pyStrip (firstLineRaw s)

/-! ## document_loader.py -/

/-- Tail of the leading numeric token: consumes the regex suffix
`(\.[0-9]+)*` greedily, one character at a time.  Called on the remainder of
the section id after its leading digits have been consumed. -/
def secTail : List Char → List Char
  | [] => []
  | c :: cs =>
    if c.isDigit then c :: secTail cs
    else if c = '.' then
      match cs with
      | [] => []
      | d :: _ => if d.isDigit then '.' :: secTail cs else []
    else []

/-- Model of document_loader.py extract_section_num (lines 130-133):
the first match of the anchored pattern `[0-9]+(\.[0-9]+)*` in section_id,
or None when the id does not start with a digit. -/
def extract_section_num (section_id : String) : Option String :=
  match section_id.data.takeWhile Char.isDigit with
  | [] => none
  | ds => some ⟨ds ++ secTail (section_id.data.dropWhile Char.isDigit)⟩

/-- Model of the Python expression `opt or dflt` on an optional string:
falls back when the option is None or holds the empty (falsy) string. -/
def pyOrStr (o : Option String) (dflt : String) : String :=
  match o with
  | some s => if s.isEmpty then dflt else s
  | none => dflt

/-- The DPDP special case of the labeling loop (document_loader.py line 116):
the loop variable of the `any` generator is unused, so the condition reduces
to a substring test for "sect" (case-insensitive) or "sec. " (literal). -/
def dpdpOverride (first_line : String) : Bool :=
  strContains (lowerStr first_line) "sect" || strContains first_line "sec. "

/-- The heading test of the labeling loop (document_loader.py line 118):
starts with one of "1." .. "49.", or is purely numeric, or contains "ANNEX"
after uppercasing the line (hence a case-insensitive containment test). -/
def headingLike (first_line : String) : Bool :=
  (List.range' 1 49).any (fun j => startsWithS first_line (Nat.repr j ++ "."))
    || pyIsDigit first_line
    || strContains (upperStr first_line) "ANNEX"

/-- Section id assigned to the chunk at zero-based position i
(document_loader.py lines 110-125).  The `else` branch of `if lines:` is
unreachable because Python split always returns a nonempty list. -/
def sectionIdFor (doc_type : String) (i : Nat) (text : String) : String :=
  if doc_type == "DPDP" && dpdpOverride (firstLineOf text) then
    "Section_" ++ Nat.repr (i + 1)
  else if headingLike (firstLineOf text) then
    firstLineOf text
  else
    "section_" ++ Nat.repr (i + 1)

/-- The labeling loop over all chunks, in order, starting at position i0. -/
def assignSectionIds (doc_type : String) : Nat → List String → List String
  | _, [] => []
  | i, t :: ts => sectionIdFor doc_type i t :: assignSectionIds doc_type (i + 1) ts

/-! ## models.py : record shapes and pydantic validation -/

/-- models.py ControlSuggestion: the validated control shape. -/
structure ControlSuggestion where
  priority : String
  control_title : String
  control : String
deriving DecidableEq, Repr

/-- models.py ComplianceRequirement: the validated requirement shape. -/
structure ComplianceRequirement where
  requirement_title : String
  article_number : String
  priority : String
  article_text : String
  requirement : String
  requirement_description : String
  controls : List ControlSuggestion
deriving DecidableEq, Repr

/-- A loosely typed control record as returned by the inference service:
each required field may be absent. -/
structure RawCtrl where
  priority : Option String
  control_title : Option String
  control : Option String
deriving DecidableEq, Repr

/-- A loosely typed requirement record as returned by the inference service:
each required field may be absent; controls are attached by process_chunk. -/
structure RawReq where
  requirement_title : Option String
  article_number : Option String
  priority : Option String
  article_text : Option String
  requirement : Option String
  requirement_description : Option String
  controls : List RawCtrl
deriving DecidableEq, Repr

/-- Model of ControlSuggestion.model_validate: every declared field must be
present. -/
def parseCtrl (c : RawCtrl) : Option ControlSuggestion :=
  match c.priority, c.control_title, c.control with
  | some p, some t, some d => some ⟨p, t, d⟩
  | _, _, _ => none

/-- Model of ComplianceRequirement.model_validate (extractor.py line 212):
every required field must be present and every nested control must validate;
otherwise the record is rejected. -/
def parseReq (r : RawReq) : Option ComplianceRequirement := do
  let title ← r.requirement_title
  let an ← r.article_number
  let pr ← r.priority
  let atext ← r.article_text
  let req ← r.requirement
  let rdesc ← r.requirement_description
  let cs ← r.controls.mapM parseCtrl
  some ⟨title, an, pr, atext, req, rdesc, cs⟩

/-! ## extractor.py : extraction stage and orchestrator -/

/-- Outcome of one inference chain invocation: a parsed JSON list, a parsed
non-list value, or a raised exception with its message. -/
inductive ChainOut (α : Type) where
  | listOut (items : List α)
  | nonList
  | raiseErr (msg : String)
deriving DecidableEq, Repr

/-- A document chunk as consumed by the extraction stage: its page_content and
the section_id stored in its metadata by load_and_chunk_pdf. -/
structure Chunk where
  page_content : String
  section_id : String
deriving DecidableEq, Repr

/-- The requirement-discovery chain: doc_name, section_number and text map to
an invocation outcome. -/
abbrev ReqChain : Type := String → String → String → ChainOut RawReq

/-- The control-suggestion chain: the requirement statement maps to an
invocation outcome. -/
abbrev CtrlChain : Type := String → ChainOut RawCtrl

/-- Model of extractor.py extract_requirements_from_chunk (lines 112-134):
derive section_num from the section id with raw-id fallback, invoke the
discovery chain, overwrite article_number and article_text on every returned
record, and treat a non-list result or a raised error as zero requirements. -/
def extract_requirements_from_chunk (req_chain : ReqChain) (chunk : Chunk)
    (doc_name : String) : List RawReq :=
  match req_chain doc_name (pyOrStr (extract_section_num chunk.section_id) chunk.section_id)
      chunk.page_content with
  | .listOut rs => rs.map (fun r =>
      { r with
        article_number := some (pyOrStr (extract_section_num chunk.section_id) chunk.section_id),
        article_text := some chunk.page_content })
  | .nonList => []
  | .raiseErr _ => []

/-- Model of extractor.py extract_controls_for_requirement (lines 137-148):
invoke the control chain on the requirement statement (empty-string default)
and treat a non-list result or a raised error as zero controls. -/
def extract_controls_for_requirement (ctrl_chain : CtrlChain)
    (requirement_dict : RawReq) : List RawCtrl :=
  match ctrl_chain (requirement_dict.requirement.getD "") with
  | .listOut cs => cs
  | .nonList => []
  | .raiseErr _ => []

/-- Model of extractor.py process_chunk (lines 151-168): extract requirements,
attach a control list to each, and return them keyed by the chunk index. -/
def process_chunk (req_chain : ReqChain) (ctrl_chain : CtrlChain)
    (doc_name : String) (i : Nat) (chunk : Chunk) : Nat × List RawReq :=
  let requirements := extract_requirements_from_chunk req_chain chunk doc_name
  (i, requirements.map (fun req =>
    { req with controls := extract_controls_for_requirement ctrl_chain req }))

/-- The requirement list contributed by the segment at index i, as stored in
the results dictionary by the orchestrator loop (extractor.py line 196).
An index with no chunk contributes nothing. -/
def segmentResults (req_chain : ReqChain) (ctrl_chain : CtrlChain)
    (doc_name : String) (chunks : List Chunk) (i : Nat) : List RawReq :=
  match chunks[i]? with
  | some c => (process_chunk req_chain ctrl_chain doc_name i c).2
  | none => []

/-- Model of Python sorted() on the key list of the results dictionary. -/
def sortNat (l : List Nat) : List Nat := List.insertionSort (· ≤ ·) l

/-- The checkpoint snapshot written after the completions listed in done
(extractor.py lines 199-203): the per-segment raw requirement lists flattened
in ascending index order.  The last checkpoint of a run is this snapshot for
the full completion order. -/
def intermediate_snapshot (req_chain : ReqChain) (ctrl_chain : CtrlChain)
    (doc_name : String) (chunks : List Chunk) (done : List Nat) : List RawReq :=
  (sortNat done).flatMap (fun i => segmentResults req_chain ctrl_chain doc_name chunks i)

/-- Model of the final aggregation of orchestrate_compliance_analysis
(extractor.py lines 206-220): iterate the completed indices in ascending
order and keep each record that validates as a ComplianceRequirement.
The argument order lists the chunk indices in completion order. -/
def orchestrate_final (req_chain : ReqChain) (ctrl_chain : CtrlChain)
    (doc_name : String) (chunks : List Chunk) (order : List Nat) :
    List ComplianceRequirement :=
  (sortNat order).flatMap
    (fun i => (segmentResults req_chain ctrl_chain doc_name chunks i).filterMap parseReq)

/-! ## api.py : task lifecycle -/

/-- models.py TaskStatus.  Timestamps are abstract instants (naturals);
progress is the float field, modeled as a rational. -/
structure TaskStatus where
  task_id : String
  status : String
  progress : Rat
  message : Option String
  result_path : Option String
  intermediate_path : Option String
  created_at : Nat
  updated_at : Nat
deriving DecidableEq, Repr

/-- The in-memory task store (api.py line 16), an insertion-ordered keyed
record list like a Python dict. -/
abbrev Store : Type := List (String × TaskStatus)

/-- Model of `task_id in task_store` / `task_store[task_id]`: value at the
first matching key. -/
def slookup : Store → String → Option TaskStatus
  | [], _ => none
  | (k, v) :: rest, key => if k = key then some v else slookup rest key

/-- Model of mutating the record object stored under a key: every entry with
that key is replaced, other entries are untouched. -/
def supdate : Store → String → TaskStatus → Store
  | [], _, _ => []
  | (k, v0) :: rest, key, v =>
    if k = key then (key, v) :: supdate rest key v
    else (k, v0) :: supdate rest key v

/-- Model of Python dict assignment `task_store[k] = v`: replace in place when
the key exists, append otherwise. -/
def storeInsert (store : Store) (key : String) (v : TaskStatus) : Store :=
  if (slookup store key).isSome then supdate store key v else store ++ [(key, v)]

/-- An HTTPException raised by an endpoint, with its status code and detail. -/
structure HttpError where
  statusCode : Nat
  detail : String
deriving DecidableEq, Repr

/-- Boolean success test on an Except value. -/
def exceptOk {ε α : Type} : Except ε α → Bool
  | .ok _ => true
  | .error _ => false

/-- The success value of an Except, with a default for the error case. -/
def exceptGetD {ε α : Type} (e : Except ε α) (d : α) : α :=
  match e with
  | .ok a => a
  | .error _ => d

/-- Model of api.py cancel_task (lines 253-270): reject an unknown task with
404, reject a completed or failed task with 400, otherwise set the status to
cancelled with the user message and a fresh updated_at. -/
def cancel_task (store : Store) (task_id : String) (now : Nat) :
    Except HttpError Store :=
  match slookup store task_id with
  | none => .error ⟨404, "Task not found"⟩
  | some ts =>
    if ts.status = "completed" ∨ ts.status = "failed" then
      .error ⟨400, "Cannot cancel a completed or failed task"⟩
    else
      .ok (supdate store task_id
        { ts with status := "cancelled", message := some "Task cancelled by user",
                  updated_at := now })

/-- Model of api.py get_analysis_status (lines 171-179). -/
def get_analysis_status (store : Store) (task_id : String) :
    Except HttpError TaskStatus :=
  match slookup store task_id with
  | none => .error ⟨404, "Task not found"⟩
  | some ts => .ok ts

/-- The first mutation of the background task (api.py lines 280-284): mark the
record processing with progress 0.1. -/
def set_processing (store : Store) (task_id : String) (now : Nat) : Store :=
  match slookup store task_id with
  | none => store
  | some ts =>
    supdate store task_id
      { ts with status := "processing", message := some "Loading and analyzing document",
                progress := 1/10, updated_at := now }

/-- The success epilogue of the background task (api.py lines 293-315): attach
the result and intermediate locations and mark the record completed.  This
step runs whatever the current status of the record is; it does not observe
cancellation. -/
def finish_success (store : Store) (task_id : String)
    (result : List ComplianceRequirement) (intermediate_filename : String)
    (now : Nat) : Store :=
  match slookup store task_id with
  | none => store
  | some ts =>
    supdate store task_id
      { ts with status := "completed", progress := 1,
                message := some ("Analysis completed. Found " ++ Nat.repr result.length
                  ++ " requirements."),
                result_path := some ("results_" ++ task_id ++ ".json"),
                intermediate_path := some intermediate_filename,
                updated_at := now }

/-- The failure epilogue of the background task (api.py lines 321-325). -/
def finish_failure (store : Store) (task_id : String) (errMsg : String)
    (now : Nat) : Store :=
  match slookup store task_id with
  | none => store
  | some ts =>
    supdate store task_id
      { ts with status := "failed", message := some ("Analysis failed: " ++ errMsg),
                updated_at := now }

/-- Model of api.py process_pdf_analysis (lines 273-331) run without
interleaving: mark processing, then apply the epilogue decided by the pipeline
outcome.  An empty successful result trips the IndexError in the hasattr
condition of line 296 and lands in the except block.  Interleavings with
cancel_task are modeled by composing set_processing, cancel_task and the
epilogue functions directly. -/
def process_pdf_analysis (store : Store) (task_id : String)
    (outcome : Except String (List ComplianceRequirement))
    (intermediate_filename : String) (t1 t2 : Nat) : Store :=
  match slookup store task_id with
  | none => store
  | some _ =>
    let s1 := set_processing store task_id t1
    match outcome with
    | .error e => finish_failure s1 task_id e t2
    | .ok result =>
      if result.isEmpty then finish_failure s1 task_id "list index out of range" t2
      else finish_success s1 task_id result intermediate_filename t2

/-- The value returned by the analyze endpoint: an HTTPException, the inline
synchronous result dict, or the queued-task dict. -/
structure AnalysisResult where
  document_name : String
  total_chunks : Nat
  processed_chunks : Nat
  requirements_found : Nat
  extracted_data : List ComplianceRequirement
  processing_status : String
  error_message : Option String
  created_at : Nat
  updated_at : Nat
deriving DecidableEq, Repr

inductive AnalyzeResponse where
  | httpError (statusCode : Nat) (detail : String)
  | completedInline (message : String) (results : AnalysisResult)
  | queued (task_id : String) (message : String)
deriving DecidableEq, Repr

/-- Observable effects of one analyze request: whether the upload content was
read, whether the temporary file was written, which background tasks were
scheduled (task id, temp path, filename), and the resulting task store. -/
structure AnalyzeEffects where
  contentRead : Bool
  tempWritten : Bool
  background : List (String × String × String)
  store : Store
deriving DecidableEq, Repr

/-- Model of api.py analyze_pdf (lines 62-168).  contentSize is the byte
length of the upload; the float comparison len/(1024*1024) < 5.0 is exact
(division by a power of two) and is modeled by the integer comparison
contentSize < 5*1024*1024.  The pipeline argument stands for the synchronous
orchestrator call, used only on the synchronous path. -/
def analyze_pdf (store : Store) (filename : String) (contentSize : Nat)
    (task_id : String) (pipeline : Except String (List ComplianceRequirement))
    (now : Nat) : AnalyzeResponse × AnalyzeEffects :=
  -- Python guards with `if not filename.lower().endswith(".pdf"): raise`;
  -- written here with the branches swapped, which is the same function.
  if endsWithS (lowerStr filename) ".pdf" then
    let temp_path := "temp_" ++ task_id ++ ".pdf"
    if contentSize < 5 * 1024 * 1024 then
      match pipeline with
      | .ok llm_result =>
        (.completedInline ("Analysis completed for " ++ filename)
          { document_name := filename, total_chunks := 0,
            processed_chunks := llm_result.length,
            requirements_found := llm_result.length, extracted_data := llm_result,
            processing_status := "completed", error_message := none,
            created_at := now, updated_at := now },
         { contentRead := true, tempWritten := true, background := [], store := store })
      | .error e =>
        (.httpError 500 ("Analysis failed: " ++ e),
         { contentRead := true, tempWritten := true, background := [], store := store })
    else
      (.queued task_id
        ("Analysis queued for large file. Use /status/" ++ task_id ++ " to check progress."),
       { contentRead := true, tempWritten := true,
         background := [(task_id, temp_path, filename)],
         store := storeInsert store task_id
           { task_id := task_id, status := "pending", progress := 0,
             message := some "Analysis queued (large file)", result_path := none,
             intermediate_path := none, created_at := now, updated_at := now } })
  else
    (.httpError 400 "File must be a PDF",
     { contentRead := false, tempWritten := false, background := [], store := store })

/-! ## Helper lemmas -/

theorem sortNat_eq_range {n : Nat} {l : List Nat} (h : l.Perm (List.range n)) :
    sortNat l = List.range n :=
  List.eq_of_perm_of_sorted ((List.perm_insertionSort _ l).trans h)
    (List.sorted_insertionSort _ l) (List.sorted_le_range n)

theorem filterMap_flatMap {α β γ : Type} (l : List α) (f : α → List β) (g : β → Option γ) :
    (l.flatMap f).filterMap g = l.flatMap (fun a => (f a).filterMap g) := by
  induction l with
  | nil => rfl
  | cons a l ih => simp [List.flatMap_cons, List.filterMap_append, ih]

theorem slookup_supdate_eq {store : Store} {key : String} {v0 : TaskStatus}
    (v : TaskStatus) (h : slookup store key = some v0) :
    slookup (supdate store key v) key = some v := by
  induction store with
  | nil => simp [slookup] at h
  | cons e rest ih =>
    obtain ⟨k0, v1⟩ := e
    by_cases hk : k0 = key
    · subst hk
      simp [slookup, supdate]
    · simp only [slookup, supdate, if_neg hk] at h ⊢
      exact ih h

theorem slookup_supdate_ne {store : Store} {key k : String} (v : TaskStatus)
    (hk : k ≠ key) : slookup (supdate store key v) k = slookup store k := by
  induction store with
  | nil => rfl
  | cons e rest ih =>
    obtain ⟨k0, v1⟩ := e
    by_cases h0 : k0 = key
    · subst h0
      simp only [supdate, if_pos rfl, slookup]
      rw [if_neg (fun h => hk h.symm), if_neg (fun h => hk h.symm)]
      exact ih
    · simp only [supdate, if_neg h0, slookup]
      by_cases h1 : k0 = k
      · simp [h1]
      · rw [if_neg h1, if_neg h1]
        exact ih

theorem slookup_append_none {s t : Store} {k : String} (h : slookup s k = none) :
    slookup (s ++ t) k = slookup t k := by
  induction s with
  | nil => rfl
  | cons e rest ih =>
    obtain ⟨k0, v0⟩ := e
    by_cases h0 : k0 = k
    · simp [slookup, h0] at h
    · simp only [slookup, List.cons_append, if_neg h0] at h ⊢
      exact ih h

theorem slookup_storeInsert_self (store : Store) (key : String) (v : TaskStatus) :
    slookup (storeInsert store key v) key = some v := by
  unfold storeInsert
  cases h : slookup store key with
  | some v0 =>
    simp only [h, Option.isSome_some, if_pos]
    exact slookup_supdate_eq v h
  | none =>
    simp only [h, Option.isSome_none, Bool.false_eq_true, if_false]
    rw [slookup_append_none h]
    simp [slookup]

theorem slookup_set_processing (store : Store) (task_id : String) (t1 : Nat)
    (ts : TaskStatus) (hts : slookup store task_id = some ts) :
    slookup (set_processing store task_id t1) task_id
      = some { ts with
               status := "processing",
               message := some "Loading and analyzing document",
               progress := 1/10, updated_at := t1 } := by
  unfold set_processing
  rw [hts]
  exact slookup_supdate_eq _ hts

theorem slookup_finish_failure (store : Store) (task_id : String) (e : String)
    (t2 : Nat) (ts : TaskStatus) (hts : slookup store task_id = some ts) :
    slookup (finish_failure store task_id e t2) task_id
      = some { ts with
               status := "failed",
               message := some ("Analysis failed: " ++ e), updated_at := t2 } := by
  unfold finish_failure
  rw [hts]
  exact slookup_supdate_eq _ hts

theorem slookup_finish_success (store : Store) (task_id : String)
    (result : List ComplianceRequirement) (ifn : String) (t2 : Nat)
    (ts : TaskStatus) (hts : slookup store task_id = some ts) :
    slookup (finish_success store task_id result ifn t2) task_id
      = some { ts with
               status := "completed", progress := 1,
               message := some ("Analysis completed. Found " ++ Nat.repr result.length
                 ++ " requirements."),
               result_path := some ("results_" ++ task_id ++ ".json"),
               intermediate_path := some ifn, updated_at := t2 } := by
  unfold finish_success
  rw [hts]
  exact slookup_supdate_eq _ hts

theorem process_pdf_analysis_ok_empty (store : Store) (task_id : String)
    (ifn : String) (t1 t2 : Nat) (ts : TaskStatus)
    (hts : slookup store task_id = some ts) :
    process_pdf_analysis store task_id (.ok []) ifn t1 t2
      = finish_failure (set_processing store task_id t1) task_id
          "list index out of range" t2 := by
  unfold process_pdf_analysis
  rw [hts]
  rfl

theorem process_pdf_analysis_ok_cons (store : Store) (task_id : String)
    (a : ComplianceRequirement) (l : List ComplianceRequirement)
    (ifn : String) (t1 t2 : Nat) (ts : TaskStatus)
    (hts : slookup store task_id = some ts) :
    process_pdf_analysis store task_id (.ok (a :: l)) ifn t1 t2
      = finish_success (set_processing store task_id t1) task_id (a :: l) ifn t2 := by
  unfold process_pdf_analysis
  rw [hts]
  rfl

/-! ## Concrete sample values used by witnesses and counterexamples -/

def demoChunkNum : Chunk :=
  { page_content := "6.1.2 Determining risks\nbody text",
    section_id := "6.1.2 Determining risks" }

def demoChunkPlain : Chunk := { page_content := "free text", section_id := "section_2" }

def demoRawCtrl : RawCtrl :=
  { priority := some "low", control_title := some "c", control := some "cd" }

def demoGoodRaw : RawReq :=
  { requirement_title := some "T", article_number := some "zzz",
    priority := some "high", article_text := some "zzz", requirement := some "do",
    requirement_description := some "d", controls := [] }

def demoBadRaw : RawReq := { demoGoodRaw with requirement_title := none }

def demoReqChainGood : ReqChain := fun _ _ _ => .listOut [demoGoodRaw]

def demoReqChainBad : ReqChain := fun _ _ _ => .listOut [demoBadRaw]

def demoFailChain : ReqChain := fun _ _ _ => .raiseErr "boom"

def demoCtrlChain : CtrlChain := fun _ => .listOut [demoRawCtrl]

def demoCompReq : ComplianceRequirement :=
  { requirement_title := "T", article_number := "1", priority := "high",
    article_text := "x", requirement := "do", requirement_description := "d",
    controls := [] }

def demoPendingTs : TaskStatus :=
  { task_id := "t", status := "pending", progress := 0,
    message := some "Analysis queued (large file)", result_path := none,
    intermediate_path := none, created_at := 0, updated_at := 0 }

def demoCancelledTs : TaskStatus :=
  { task_id := "t", status := "cancelled", progress := 0,
    message := some "Task cancelled by user", result_path := none,
    intermediate_path := none, created_at := 0, updated_at := 0 }

def demoCompletedTs : TaskStatus :=
  { task_id := "c", status := "completed", progress := 1,
    message := some "Analysis completed. Found 1 requirements.",
    result_path := some "results_c.json", intermediate_path := some "int.json",
    created_at := 0, updated_at := 0 }

def demoProcessingTs : TaskStatus :=
  { task_id := "a", status := "processing", progress := 1/10,
    message := some "Loading and analyzing document", result_path := none,
    intermediate_path := none, created_at := 0, updated_at := 1 }

def demoStoreAB : Store := [("a", demoProcessingTs), ("b", demoPendingTs)]

/-- The record that extract_requirements_from_chunk emits for demoChunkNum
when the discovery chain returns demoGoodRaw. -/
def demoOverwrittenRaw : RawReq :=
  { demoGoodRaw with article_number := some "6.1.2",
                     article_text := some "6.1.2 Determining risks\nbody text" }

/-! ## Claim theorems -/

/-- Claim C1: for every completed run, the orchestrator result equals the
concatenation of per-segment validated requirement lists in ascending segment
ordinal order, for every completion order of the per-segment invocations, so
any two completion orders give identical output. -/
theorem c1_order_invariance (req_chain : ReqChain) (ctrl_chain : CtrlChain)
    (doc_name : String) (chunks : List Chunk) (order order2 : List Nat)
    (h : order.Perm (List.range chunks.length))
    (h2 : order2.Perm (List.range chunks.length)) :
    orchestrate_final req_chain ctrl_chain doc_name chunks order
      = (List.range chunks.length).flatMap
          (fun i => (segmentResults req_chain ctrl_chain doc_name chunks i).filterMap parseReq)
    ∧ orchestrate_final req_chain ctrl_chain doc_name chunks order
      = orchestrate_final req_chain ctrl_chain doc_name chunks order2 := by
  unfold orchestrate_final
  rw [sortNat_eq_range h, sortNat_eq_range h2]
  exact ⟨rfl, rfl⟩

/-- Witness for C1 at a two-segment document and two completion orders. -/
theorem c1_order_invariance_witness :
    orchestrate_final demoReqChainGood demoCtrlChain "Doc" [demoChunkNum, demoChunkPlain] [1, 0]
      = (List.range 2).flatMap
          (fun i => (segmentResults demoReqChainGood demoCtrlChain "Doc"
            [demoChunkNum, demoChunkPlain] i).filterMap parseReq)
    ∧ orchestrate_final demoReqChainGood demoCtrlChain "Doc" [demoChunkNum, demoChunkPlain] [1, 0]
      = orchestrate_final demoReqChainGood demoCtrlChain "Doc" [demoChunkNum, demoChunkPlain] [0, 1] :=
  c1_order_invariance demoReqChainGood demoCtrlChain "Doc" [demoChunkNum, demoChunkPlain]
    [1, 0] [0, 1] (by decide) (by decide)

/-- Claim C3, counterexample: a raw record that fails ComplianceRequirement
validation appears in the last checkpoint snapshot but is dropped from the
return value, so the two are not identical. -/
theorem c3_last_checkpoint_cex :
    (intermediate_snapshot demoReqChainBad demoCtrlChain "Doc" [demoChunkNum] [0]).length = 1
    ∧ (orchestrate_final demoReqChainBad demoCtrlChain "Doc" [demoChunkNum] [0]).length = 0 := by
  decide

/-- Claim C3, amended: the return value equals the last checkpoint snapshot
with per-record ComplianceRequirement validation applied, records that fail
validation being dropped (they coincide when every record validates). -/
theorem c3_final_is_validated_checkpoint (req_chain : ReqChain) (ctrl_chain : CtrlChain)
    (doc_name : String) (chunks : List Chunk) (order : List Nat) :
    orchestrate_final req_chain ctrl_chain doc_name chunks order
      = (intermediate_snapshot req_chain ctrl_chain doc_name chunks order).filterMap parseReq := by
  unfold orchestrate_final intermediate_snapshot
  exact (filterMap_flatMap _ _ _).symm

/-- Claim C5, counterexample: a single-segment document whose discovery call
raises is absorbed as an empty list at the extraction stage, but the empty
final result then trips the result subscript inside the hasattr condition of
the background epilogue (api.py line 296), whose IndexError lands in the
except block and marks the task failed - so this per-call failure does cause
task-level failure, against the claim. -/
theorem c5_failure_isolation_cex :
    orchestrate_final demoFailChain demoCtrlChain "Doc" [demoChunkNum]
        (List.range (List.length [demoChunkNum])) = []
    ∧ (slookup (process_pdf_analysis [("t", demoPendingTs)] "t"
          (.ok (orchestrate_final demoFailChain demoCtrlChain "Doc" [demoChunkNum]
            (List.range (List.length [demoChunkNum])))) "int.json" 1 2) "t").map
        (fun ts => ts.status) = some "failed"
    ∧ (slookup (process_pdf_analysis [("t", demoPendingTs)] "t"
          (.ok (orchestrate_final demoFailChain demoCtrlChain "Doc" [demoChunkNum]
            (List.range (List.length [demoChunkNum])))) "int.json" 1 2) "t").map
        (fun ts => ts.message)
        = some (some "Analysis failed: list index out of range") := by
  decide

/-- Claim C5, amended: an inference call that raises or returns a non-list
value contributes an empty list for that call scope, the error does not
escape the extraction stage, and a failing discovery call for one segment
leaves every other segment contribution in the final ordered result
unchanged; however, a per-call failure can still cause task-level failure on
the asynchronous path: whenever the final validated result is empty (for
instance because the only segment failed), the background epilogue raises
IndexError at its result subscript and marks the task failed, while a
nonempty final result completes the task. -/
theorem c5_failure_isolation_amended (msg doc_name : String) (chunk : Chunk)
    (req_dict : RawReq) (req_chain : ReqChain) (ctrl_chain : CtrlChain)
    (chunks : List Chunk) (i : Nat) (c : Chunk) (store : Store)
    (task_id : String) (ifn : String) (t1 t2 : Nat) (ts : TaskStatus)
    (result : List ComplianceRequirement) :
    extract_requirements_from_chunk (fun _ _ _ => .raiseErr msg) chunk doc_name = []
    ∧ extract_requirements_from_chunk (fun _ _ _ => .nonList) chunk doc_name = []
    ∧ extract_controls_for_requirement (fun _ => .raiseErr msg) req_dict = []
    ∧ extract_controls_for_requirement (fun _ => .nonList) req_dict = []
    ∧ (chunks[i]? = some c →
        req_chain doc_name (pyOrStr (extract_section_num c.section_id) c.section_id)
            c.page_content = .raiseErr msg →
        orchestrate_final req_chain ctrl_chain doc_name chunks (List.range chunks.length)
          = (List.range chunks.length).flatMap
              (fun j => if j = i then []
                else (segmentResults req_chain ctrl_chain doc_name chunks j).filterMap parseReq))
    ∧ (slookup store task_id = some ts →
        (slookup (process_pdf_analysis store task_id (.ok []) ifn t1 t2) task_id).map
            (fun t => t.status) = some "failed")
    ∧ (slookup store task_id = some ts → result ≠ [] →
        (slookup (process_pdf_analysis store task_id (.ok result) ifn t1 t2) task_id).map
            (fun t => t.status) = some "completed") := by
  refine ⟨rfl, rfl, rfl, rfl, fun hc hfail => ?_, fun hts => ?_, fun hts hne => ?_⟩
  · have hseg : segmentResults req_chain ctrl_chain doc_name chunks i = [] := by
      simp [segmentResults, hc, process_chunk, extract_requirements_from_chunk, hfail]
    have hf : (fun j => (segmentResults req_chain ctrl_chain doc_name chunks j).filterMap parseReq)
        = (fun j => if j = i then []
            else (segmentResults req_chain ctrl_chain doc_name chunks j).filterMap parseReq) := by
      funext j
      by_cases hj : j = i
      · subst hj
        simp [hseg]
      · simp [hj]
    unfold orchestrate_final
    rw [sortNat_eq_range (List.Perm.refl _), hf]
  · rw [process_pdf_analysis_ok_empty store task_id ifn t1 t2 ts hts,
        slookup_finish_failure _ _ _ _ _ (slookup_set_processing store task_id t1 ts hts)]
    rfl
  · cases result with
    | nil => exact absurd rfl hne
    | cons a l =>
      rw [process_pdf_analysis_ok_cons store task_id a l ifn t1 t2 ts hts,
          slookup_finish_success _ _ _ _ _ _ (slookup_set_processing store task_id t1 ts hts)]
      rfl

/-- Witness for C5 amended at concrete failing chains, a one-segment
document, and a concrete task record for both epilogue outcomes. -/
theorem c5_failure_isolation_witness :
    extract_requirements_from_chunk (fun _ _ _ => .raiseErr "boom") demoChunkNum "Doc" = []
    ∧ extract_requirements_from_chunk (fun _ _ _ => .nonList) demoChunkNum "Doc" = []
    ∧ extract_controls_for_requirement (fun _ => .raiseErr "boom") demoGoodRaw = []
    ∧ extract_controls_for_requirement (fun _ => .nonList) demoGoodRaw = []
    ∧ orchestrate_final demoFailChain demoCtrlChain "Doc" [demoChunkNum]
        (List.range (List.length [demoChunkNum]))
      = (List.range (List.length [demoChunkNum])).flatMap
          (fun j => if j = 0 then []
            else (segmentResults demoFailChain demoCtrlChain "Doc" [demoChunkNum] j).filterMap parseReq)
    ∧ (slookup (process_pdf_analysis [("t", demoPendingTs)] "t" (.ok []) "int.json" 1 2) "t").map
        (fun t => t.status) = some "failed"
    ∧ (slookup (process_pdf_analysis [("t", demoPendingTs)] "t" (.ok [demoCompReq]) "int.json" 1 2) "t").map
        (fun t => t.status) = some "completed" := by
  have h := c5_failure_isolation_amended "boom" "Doc" demoChunkNum demoGoodRaw demoFailChain
    demoCtrlChain [demoChunkNum] 0 demoChunkNum [("t", demoPendingTs)] "t" "int.json" 1 2
    demoPendingTs [demoCompReq]
  exact ⟨h.1, h.2.1, h.2.2.1, h.2.2.2.1, h.2.2.2.2.1 rfl rfl, h.2.2.2.2.2.1 rfl,
    h.2.2.2.2.2.2 rfl (by decide)⟩

/-- Claim C7: the extraction stage overwrites article_number on every emitted
record with the leading numeric token of the segment id (falling back to the
raw id when none exists) and overwrites article_text with the segment text,
whatever the inference service reported; the id starting with 6.1.2 yields
the token 6.1.2. -/
theorem c7_article_number_overwrite (req_chain : ReqChain) (chunk : Chunk)
    (doc_name : String) (r : RawReq)
    (hmem : r ∈ extract_requirements_from_chunk req_chain chunk doc_name) :
    r.article_number = some (pyOrStr (extract_section_num chunk.section_id) chunk.section_id)
    ∧ r.article_text = some chunk.page_content
    ∧ extract_section_num "6.1.2 Determining risks" = some "6.1.2"
    ∧ ∀ sid : String, extract_section_num sid = none →
        pyOrStr (extract_section_num sid) sid = sid := by
  have key : r.article_number
        = some (pyOrStr (extract_section_num chunk.section_id) chunk.section_id)
      ∧ r.article_text = some chunk.page_content := by
    unfold extract_requirements_from_chunk at hmem
    split at hmem
    · obtain ⟨r0, hr0, rfl⟩ := List.mem_map.1 hmem
      exact ⟨rfl, rfl⟩
    · exact absurd hmem (List.not_mem_nil r)
    · exact absurd hmem (List.not_mem_nil r)
  refine ⟨key.1, key.2, by decide, fun sid hnone => ?_⟩
  rw [hnone]
  rfl

/-- Witness for C7 at a concrete chain whose reported article fields are
bogus and get overwritten. -/
theorem c7_article_number_overwrite_witness :
    demoOverwrittenRaw.article_number
      = some (pyOrStr (extract_section_num demoChunkNum.section_id) demoChunkNum.section_id)
    ∧ demoOverwrittenRaw.article_text = some demoChunkNum.page_content
    ∧ extract_section_num "6.1.2 Determining risks" = some "6.1.2"
    ∧ ∀ sid : String, extract_section_num sid = none →
        pyOrStr (extract_section_num sid) sid = sid :=
  c7_article_number_overwrite demoReqChainGood demoChunkNum "Doc" demoOverwrittenRaw (by decide)

theorem assignSectionIds_get (dt : String) (texts : List String) (i0 : Nat) :
    ∀ i, (assignSectionIds dt i0 texts)[i]?
      = (texts[i]?).map (fun t => sectionIdFor dt (i0 + i) t) := by
  induction texts generalizing i0 with
  | nil => intro i; rfl
  | cons t ts ih =>
    intro i
    cases i with
    | zero => simp [assignSectionIds]
    | succ j =>
      have heq : i0 + 1 + j = i0 + (j + 1) := by omega
      have := ih (i0 + 1) j
      rw [heq] at this
      simpa [assignSectionIds] using this

/-- Claim C8, counterexample: under the GENERAL document type a first line
containing a lowercase annex token (no all-caps ANNEX token, no leading small
integer with period, not purely numeric) is still used as the id, where the
claim demands the positional fallback. -/
theorem c8_segment_labeling_cex :
    assignSectionIds "GENERAL" 0 ["annex A\nbody"] = ["annex A"]
    ∧ strContains (firstLineOf "annex A\nbody") "ANNEX" = false
    ∧ ((List.range' 1 49).any
        (fun j => startsWithS (firstLineOf "annex A\nbody") (Nat.repr j ++ "."))) = false
    ∧ pyIsDigit (firstLineOf "annex A\nbody") = false
    ∧ ("annex A" : String) ≠ "section_1"
    ∧ assignSectionIds "DPDP" 0 ["Section 5 Duties\nbody"] = ["Section_1"]
    ∧ ("Section_1" : String) ≠ "section_1"
    ∧ ("Section_1" : String) ≠ firstLineOf "Section 5 Duties\nbody" := by
  decide

/-- Claim C8, amended: the piece at 0-based position i gets the id computed
from its own first line and position; when the document type is DPDP and the
first line contains "sect" case-insensitively or the literal "sec. ", the id
is the override "Section_{i+1}"; otherwise the trimmed first line is used
exactly when it starts with an integer 1..49 followed by a period, is purely
numeric, or contains "ANNEX" case-insensitively (the line is uppercased
before the test); in every remaining case, including empty text, the id is
the positional fallback "section_{i+1}". -/
theorem c8_segment_labeling_amended (dt : String) (texts : List String)
    (i : Nat) (t : String) (ht : texts[i]? = some t) :
    (assignSectionIds dt 0 texts)[i]? = some (sectionIdFor dt i t)
    ∧ ((dt == "DPDP" && dpdpOverride (firstLineOf t)) = true →
        sectionIdFor dt i t = "Section_" ++ Nat.repr (i + 1))
    ∧ ((dt == "DPDP" && dpdpOverride (firstLineOf t)) = false →
        headingLike (firstLineOf t) = true →
        sectionIdFor dt i t = firstLineOf t)
    ∧ ((dt == "DPDP" && dpdpOverride (firstLineOf t)) = false →
        headingLike (firstLineOf t) = false →
        sectionIdFor dt i t = "section_" ++ Nat.repr (i + 1))
    ∧ sectionIdFor dt i "" = "section_" ++ Nat.repr (i + 1) := by
  refine ⟨?_, ?_, ?_, ?_, ?_⟩
  · rw [assignSectionIds_get, ht]
    simp
  · intro h
    unfold sectionIdFor
    rw [h]
    rfl
  · intro h hh
    unfold sectionIdFor
    rw [h, hh]
    rfl
  · intro h hh
    unfold sectionIdFor
    rw [h, hh]
    rfl
  · have h0 : dpdpOverride (firstLineOf "") = false := by decide
    have h1 : headingLike (firstLineOf "") = false := by decide
    unfold sectionIdFor
    rw [h0, Bool.and_false, h1]
    rfl

/-- Witness for C8 at a DPDP document whose first line trips the override. -/
theorem c8_segment_labeling_witness :
    (assignSectionIds "DPDP" 0 ["Section 5 Duties\nbody"])[0]?
      = some (sectionIdFor "DPDP" 0 "Section 5 Duties\nbody")
    ∧ (("DPDP" == "DPDP" && dpdpOverride (firstLineOf "Section 5 Duties\nbody")) = true →
        sectionIdFor "DPDP" 0 "Section 5 Duties\nbody" = "Section_" ++ Nat.repr 1)
    ∧ sectionIdFor "DPDP" 0 "Section 5 Duties\nbody" = "Section_1" := by
  have h := c8_segment_labeling_amended "DPDP" ["Section 5 Duties\nbody"] 0
    "Section 5 Duties\nbody" rfl
  exact ⟨h.1, h.2.1, (h.2.1 (by decide)).trans (by decide)⟩

/-- Claim C2, counterexample: a task cancelled between the background start
and the background completion is overwritten to completed, with the result
location attached rather than discarded, so the terminal state cancelled is
left and the pipeline result is merged. -/
theorem c2_terminal_state_cex :
    exceptOk (cancel_task (set_processing [("t", demoPendingTs)] "t" 1) "t" 2) = true
    ∧ (slookup (exceptGetD (cancel_task (set_processing [("t", demoPendingTs)] "t" 1) "t" 2) []) "t").map
        (fun ts => ts.status) = some "cancelled"
    ∧ (slookup (finish_success
          (exceptGetD (cancel_task (set_processing [("t", demoPendingTs)] "t" 1) "t" 2) [])
          "t" [demoCompReq] "int.json" 3) "t").map (fun ts => ts.status) = some "completed"
    ∧ (slookup (finish_success
          (exceptGetD (cancel_task (set_processing [("t", demoPendingTs)] "t" 1) "t" 2) [])
          "t" [demoCompReq] "int.json" 3) "t").map (fun ts => ts.result_path)
        = some (some "results_t.json") := by
  decide

/-- Claim C2, amended: completed and failed records are terminal with respect
to cancel, which rejects them with InvalidState and leaves the store
untouched; but cancelled is not terminal with respect to the background
pipeline: a success epilogue running after a cancel overwrites the status to
completed and attaches the result location (results merged, not discarded). -/
theorem c2_terminal_states_amended (store : Store) (task_id : String) (now : Nat)
    (result : List ComplianceRequirement) (ifn : String) (ts : TaskStatus)
    (hts : slookup store task_id = some ts) :
    ((ts.status = "completed" ∨ ts.status = "failed") →
      cancel_task store task_id now
        = .error ⟨400, "Cannot cancel a completed or failed task"⟩)
    ∧ (ts.status = "cancelled" →
        (slookup (finish_success store task_id result ifn now) task_id).map
            (fun t => t.status) = some "completed"
        ∧ (slookup (finish_success store task_id result ifn now) task_id).map
            (fun t => t.result_path)
          = some (some ("results_" ++ task_id ++ ".json"))) := by
  constructor
  · intro hterm
    unfold cancel_task
    rw [hts]
    exact if_pos hterm
  · intro _
    unfold finish_success
    rw [hts]
    rw [slookup_supdate_eq _ hts]
    exact ⟨rfl, rfl⟩

/-- Witness for C2 amended at a cancelled record overwritten by the success
epilogue and at a completed record rejected by cancel. -/
theorem c2_terminal_states_witness :
    ((slookup (finish_success [("t", demoCancelledTs)] "t" [demoCompReq] "int.json" 4) "t").map
        (fun t => t.status) = some "completed"
      ∧ (slookup (finish_success [("t", demoCancelledTs)] "t" [demoCompReq] "int.json" 4) "t").map
          (fun t => t.result_path) = some (some ("results_" ++ "t" ++ ".json")))
    ∧ cancel_task [("c", demoCompletedTs)] "c" 9
        = .error ⟨400, "Cannot cancel a completed or failed task"⟩ := by
  have h1 := (c2_terminal_states_amended [("t", demoCancelledTs)] "t" 4 [demoCompReq]
    "int.json" demoCancelledTs rfl).2 rfl
  have h2 := (c2_terminal_states_amended [("c", demoCompletedTs)] "c" 9 [] "x"
    demoCompletedTs rfl).1 (Or.inl rfl)
  exact ⟨h1, h2⟩

/-- Claim C4, counterexample: a task already in the terminal state cancelled
is accepted again by cancel rather than rejected with InvalidState. -/
theorem c4_cancel_iff_cex :
    slookup [("t", demoCancelledTs)] "t" = some demoCancelledTs
    ∧ demoCancelledTs.status = "cancelled"
    ∧ exceptOk (cancel_task [("t", demoCancelledTs)] "t" 9) = true := by
  decide

/-- Claim C4, amended: cancel succeeds exactly when the task exists and its
status is neither completed nor failed (so it also succeeds, repeatedly, on
an already cancelled task); an unknown task fails with NotFound; a completed
or failed task fails with InvalidState; a successful cancel stores the status
cancelled with the user message. -/
theorem c4_cancel_contract_amended (store : Store) (task_id : String) (now : Nat) :
    (slookup store task_id = none →
      cancel_task store task_id now = .error ⟨404, "Task not found"⟩)
    ∧ (∀ ts, slookup store task_id = some ts →
        ((ts.status = "completed" ∨ ts.status = "failed") →
          cancel_task store task_id now
            = .error ⟨400, "Cannot cancel a completed or failed task"⟩)
        ∧ (ts.status ≠ "completed" → ts.status ≠ "failed" →
            cancel_task store task_id now
              = .ok (supdate store task_id
                  { ts with status := "cancelled",
                            message := some "Task cancelled by user",
                            updated_at := now })))
    ∧ (exceptOk (cancel_task store task_id now) = true ↔
        ∃ ts, slookup store task_id = some ts
          ∧ ts.status ≠ "completed" ∧ ts.status ≠ "failed") := by
  refine ⟨?_, ?_, ?_⟩
  · intro h
    unfold cancel_task
    rw [h]
  · intro ts hts
    constructor
    · intro hterm
      unfold cancel_task
      rw [hts]
      exact if_pos hterm
    · intro h1 h2
      unfold cancel_task
      rw [hts]
      exact if_neg (not_or.mpr ⟨h1, h2⟩)
  · constructor
    · intro hok
      cases h : slookup store task_id with
      | none =>
        rw [show cancel_task store task_id now = .error ⟨404, "Task not found"⟩ from by
          unfold cancel_task; rw [h]] at hok
        simp [exceptOk] at hok
      | some ts =>
        by_cases hterm : ts.status = "completed" ∨ ts.status = "failed"
        · rw [show cancel_task store task_id now
              = .error ⟨400, "Cannot cancel a completed or failed task"⟩ from by
            unfold cancel_task; rw [h]; exact if_pos hterm] at hok
          simp [exceptOk] at hok
        · exact ⟨ts, rfl, fun hc => hterm (Or.inl hc), fun hf => hterm (Or.inr hf)⟩
    · rintro ⟨ts, h, hc, hf⟩
      rw [show cancel_task store task_id now
          = .ok (supdate store task_id
              { ts with status := "cancelled", message := some "Task cancelled by user",
                        updated_at := now }) from by
        unfold cancel_task; rw [h]; exact if_neg (not_or.mpr ⟨hc, hf⟩)]
      rfl

/-- Witness for C4 amended: cancelling an already cancelled task succeeds
again and rewrites the record. -/
theorem c4_cancel_contract_witness :
    cancel_task [("t", demoCancelledTs)] "t" 9
      = .ok (supdate [("t", demoCancelledTs)] "t"
          { demoCancelledTs with
            status := "cancelled",
            message := some "Task cancelled by user", updated_at := 9 }) :=
  ((c4_cancel_contract_amended [("t", demoCancelledTs)] "t" 9).2.1 demoCancelledTs rfl).2
    (by decide) (by decide)

/-- Claim C10: a successful cancel changes only the status, message and
updated_at fields of the targeted record; task_id, progress, result_path,
intermediate_path and created_at are preserved and every other key of the
store is untouched. -/
theorem c10_cancel_frame (store : Store) (task_id : String) (now : Nat)
    (ts : TaskStatus) (hts : slookup store task_id = some ts)
    (h1 : ts.status ≠ "completed") (h2 : ts.status ≠ "failed") :
    ∃ newStore, cancel_task store task_id now = .ok newStore
      ∧ (∃ ts2, slookup newStore task_id = some ts2
          ∧ ts2.task_id = ts.task_id ∧ ts2.progress = ts.progress
          ∧ ts2.result_path = ts.result_path
          ∧ ts2.intermediate_path = ts.intermediate_path
          ∧ ts2.created_at = ts.created_at
          ∧ ts2.status = "cancelled"
          ∧ ts2.message = some "Task cancelled by user"
          ∧ ts2.updated_at = now)
      ∧ ∀ k, k ≠ task_id → slookup newStore k = slookup store k := by
  refine ⟨supdate store task_id
      { ts with status := "cancelled", message := some "Task cancelled by user",
                updated_at := now }, ?_, ?_, ?_⟩
  · unfold cancel_task
    rw [hts]
    exact if_neg (not_or.mpr ⟨h1, h2⟩)
  · exact ⟨_, slookup_supdate_eq _ hts, rfl, rfl, rfl, rfl, rfl, rfl, rfl, rfl⟩
  · intro k hk
    exact slookup_supdate_ne _ hk

/-- Witness for C10 at a two-task store, cancelling the processing task. -/
theorem c10_cancel_frame_witness :
    ∃ newStore, cancel_task demoStoreAB "a" 7 = .ok newStore
      ∧ (∃ ts2, slookup newStore "a" = some ts2
          ∧ ts2.task_id = demoProcessingTs.task_id
          ∧ ts2.progress = demoProcessingTs.progress
          ∧ ts2.result_path = demoProcessingTs.result_path
          ∧ ts2.intermediate_path = demoProcessingTs.intermediate_path
          ∧ ts2.created_at = demoProcessingTs.created_at
          ∧ ts2.status = "cancelled"
          ∧ ts2.message = some "Task cancelled by user"
          ∧ ts2.updated_at = 7)
      ∧ ∀ k, k ≠ "a" → slookup newStore k = slookup demoStoreAB k :=
  c10_cancel_frame demoStoreAB "a" 7 demoProcessingTs rfl (by decide) (by decide)

/-- Claim C9: an upload whose declared filename does not end with .pdf
case-insensitively is rejected with a 400 client error before the content is
read, before any temporary file is written, with no task record created and
no pipeline invocation. -/
theorem c9_non_pdf_rejected (store : Store) (filename : String) (contentSize : Nat)
    (task_id : String) (pipeline : Except String (List ComplianceRequirement))
    (now : Nat) (h : endsWithS (lowerStr filename) ".pdf" = false) :
    analyze_pdf store filename contentSize task_id pipeline now
      = (.httpError 400 "File must be a PDF",
         { contentRead := false, tempWritten := false, background := [], store := store }) := by
  unfold analyze_pdf
  rw [h]
  rfl

/-- Witness for C9 at a concrete non-PDF filename. -/
theorem c9_non_pdf_rejected_witness :
    analyze_pdf [] "doc.txt" 0 "t" (.ok []) 0
      = (.httpError 400 "File must be a PDF",
         { contentRead := false, tempWritten := false, background := [], store := [] }) :=
  c9_non_pdf_rejected [] "doc.txt" 0 "t" (.ok []) 0 (by decide)

/-- Claim C6: a submitted PDF strictly below 5.0 MB runs the pipeline
synchronously in the request and returns the result inline with the task
store unchanged (so no id of it is ever visible to get_status), while a
document of at least 5.0 MB creates a pending task record, returns its id
immediately, and schedules the pipeline on the background context. -/
theorem c6_size_routing (store : Store) (filename : String) (contentSize : Nat)
    (task_id : String) (pipeline : Except String (List ComplianceRequirement))
    (now : Nat) (hpdf : endsWithS (lowerStr filename) ".pdf" = true) :
    (contentSize < 5 * 1024 * 1024 →
      (analyze_pdf store filename contentSize task_id pipeline now).2.store = store
      ∧ (analyze_pdf store filename contentSize task_id pipeline now).2.background = []
      ∧ (∀ llm_result, pipeline = .ok llm_result →
          (analyze_pdf store filename contentSize task_id pipeline now).1
            = .completedInline ("Analysis completed for " ++ filename)
                { document_name := filename, total_chunks := 0,
                  processed_chunks := llm_result.length,
                  requirements_found := llm_result.length,
                  extracted_data := llm_result, processing_status := "completed",
                  error_message := none, created_at := now, updated_at := now })
      ∧ (∀ id, slookup store id = none →
          get_analysis_status
              (analyze_pdf store filename contentSize task_id pipeline now).2.store id
            = .error ⟨404, "Task not found"⟩))
    ∧ (¬ contentSize < 5 * 1024 * 1024 →
      (analyze_pdf store filename contentSize task_id pipeline now).1
        = .queued task_id
            ("Analysis queued for large file. Use /status/" ++ task_id ++ " to check progress.")
      ∧ slookup (analyze_pdf store filename contentSize task_id pipeline now).2.store task_id
          = some { task_id := task_id, status := "pending", progress := 0,
                   message := some "Analysis queued (large file)", result_path := none,
                   intermediate_path := none, created_at := now, updated_at := now }
      ∧ (analyze_pdf store filename contentSize task_id pipeline now).2.background
          = [(task_id, "temp_" ++ task_id ++ ".pdf", filename)]) := by
  constructor
  · intro hsize
    cases pipeline with
    | ok llm =>
      refine ⟨?_, ?_, ?_, ?_⟩
      · simp [analyze_pdf, hpdf, hsize]
      · simp [analyze_pdf, hpdf, hsize]
      · intro l hl
        rw [Except.ok.injEq] at hl
        subst hl
        simp [analyze_pdf, hpdf, hsize]
      · intro id hid
        have hst : (analyze_pdf store filename contentSize task_id (.ok llm) now).2.store
            = store := by simp [analyze_pdf, hpdf, hsize]
        rw [hst]
        unfold get_analysis_status
        rw [hid]
    | error e =>
      refine ⟨?_, ?_, ?_, ?_⟩
      · simp [analyze_pdf, hpdf, hsize]
      · simp [analyze_pdf, hpdf, hsize]
      · intro l hl
        exact absurd hl (by simp)
      · intro id hid
        have hst : (analyze_pdf store filename contentSize task_id (.error e) now).2.store
            = store := by simp [analyze_pdf, hpdf, hsize]
        rw [hst]
        unfold get_analysis_status
        rw [hid]
  · intro hsize
    refine ⟨?_, ?_, ?_⟩
    · simp [analyze_pdf, hpdf, hsize]
    · have hst : (analyze_pdf store filename contentSize task_id pipeline now).2.store
          = storeInsert store task_id
              { task_id := task_id, status := "pending", progress := 0,
                message := some "Analysis queued (large file)", result_path := none,
                intermediate_path := none, created_at := now, updated_at := now } := by
        simp [analyze_pdf, hpdf, hsize]
      rw [hst]
      exact slookup_storeInsert_self store task_id _
    · simp [analyze_pdf, hpdf, hsize]

/-- Witness for C6: a 3 MB upload answered inline with the store unchanged,
and a 7 MB upload queued with a pending record. -/
theorem c6_size_routing_witness :
    ((analyze_pdf [] "small.pdf" 3145728 "t1" (.ok []) 5).2.store = ([] : Store)
      ∧ (analyze_pdf [] "small.pdf" 3145728 "t1" (.ok []) 5).2.background = []
      ∧ (analyze_pdf [] "small.pdf" 3145728 "t1" (.ok []) 5).1
          = .completedInline ("Analysis completed for " ++ "small.pdf")
              { document_name := "small.pdf", total_chunks := 0, processed_chunks := 0,
                requirements_found := 0, extracted_data := [],
                processing_status := "completed", error_message := none,
                created_at := 5, updated_at := 5 })
    ∧ ((analyze_pdf [] "big.pdf" 7340032 "t2" (.ok []) 5).1
        = .queued "t2"
            ("Analysis queued for large file. Use /status/" ++ "t2" ++ " to check progress.")
      ∧ slookup (analyze_pdf [] "big.pdf" 7340032 "t2" (.ok []) 5).2.store "t2"
          = some { task_id := "t2", status := "pending", progress := 0,
                   message := some "Analysis queued (large file)", result_path := none,
                   intermediate_path := none, created_at := 5, updated_at := 5 }) := by
  have hs := (c6_size_routing [] "small.pdf" 3145728 "t1" (.ok []) 5 (by decide)).1 (by decide)
  have hb := (c6_size_routing [] "big.pdf" 7340032 "t2" (.ok []) 5 (by decide)).2 (by decide)
  exact ⟨⟨hs.1, hs.2.1, hs.2.2.1 [] rfl⟩, hb.1, hb.2.1⟩

end ComplianceAgent
